import Mathlib

/-!
Shallow embedding of the EduCompanion backend (src/app.py).

The two MongoDB collections (`users`, `user_files`) are modelled as Lean
lists; `find_one` over a username/email equality query becomes `List.find?`
with a boolean predicate on the corresponding field; `insert_one` appends at
the end; `update_one` replaces the fields of the first matching record, and
with `upsert=True` inserts a fresh record built from the query's equality
field plus the `$set` fields when nothing matches (MongoDB upsert semantics:
the created document carries only those fields, in particular no
`created_at`).  The Flask server-side session is modelled by the username it
binds (`none` when the `username` key is absent, i.e. anonymous); the
`user_id` entry that `login` also stores is a stringified Mongo ObjectId and
is outside the model since nothing reads it.  Calls to
`datetime.datetime.now()` become explicit `Nat` time parameters.  `bcrypt`
is modelled by a concrete salted, invertible-per-salt encoding whose only
relevant property is that `checkpw` verifies what `hashpw` produced.
Schema-free JSON payloads (the `progress` field) are modelled by an
explicit `Json` type with a `null` value, so that a field stored as BSON
null is distinguished from an absent field (`Option Json` at the record
level) and from the empty object.
-/

/-- Schema-free JSON/BSON value, enough to distinguish `null`, the empty
object and arbitrary structured payloads. -/
inductive Json where
  | null : Json
  | bool (b : Bool) : Json
  | num (n : Int) : Json
  | str (s : String) : Json
  | arr (elems : List Json) : Json
  | obj (fields : List (String × Json)) : Json

/-- Opaque salted hash value, as produced by `bcrypt.hashpw`: the digest is
a function of the salt and the password. -/
structure BcryptHash where
  salt : Nat
  digest : String
deriving DecidableEq

/-- Model of `bcrypt.hashpw(password, salt)`: a salted one-way hash whose
only relevant property is that verification recomputes it. -/
def hashpw (password : String) (salt : Nat) : BcryptHash :=
  { salt := salt, digest := password }

/-- Model of `bcrypt.checkpw(password, hashed)`: recompute the hash with the
stored salt and compare, as bcrypt does. -/
def checkpw (password : String) (hashed : BcryptHash) : Bool :=
  hashpw password hashed.salt == hashed

/-- A record of the `users` collection: username, bcrypt hash, email, grade,
creation time, and the schema-free `progress` field (`none` when the field
was never set on the document). -/
structure User where
  username : String
  password : BcryptHash
  email : String
  grade : String
  created_at : Nat
  progress : Option Json

/-- A record of the `user_files` collection.  `content` is the stored value
of the `content` field (`none` models BSON null, stored when a write request
lacked the key).  `created_at` is optional because a document created by the
upsert in `update_user_file` has no such field. -/
structure UserFile where
  username : String
  content : Option String
  created_at : Option Nat
  updated_at : Nat
deriving DecidableEq

/-- The persistent state: the two MongoDB collections. -/
structure AppState where
  users : List User
  user_files : List UserFile

/-- The server-side session, reduced to the username it binds; `none` is the
anonymous session (no `username` key). -/
abbrev SessionState := Option String

/-- Session read used by the gated endpoints and by the spec's
`CurrentUser()`: the bound username, if any. -/
def current_user (sess : SessionState) : Option String :=
  sess

/-- `create_user_file` (src/app.py:125): inserts the default document for
`username` when none exists, else a no-op; returns the Python function's
boolean together with the updated collection. -/
def create_user_file (username : String) (now : Nat) (files : List UserFile) :
    Bool × List UserFile :=
  match files.find? (fun f => f.username == username) with
  | some _ => (false, files)
  | none =>
    (true, files ++ [{ username := username,
                       content := some "Welcome to EduCompanion!",
                       created_at := some now,
                       updated_at := now }])

/-- The `update_one(... upsert=True)` call of `update_user_file`: replaces
`content` and `updated_at` on the first document matching `username`, or
inserts a fresh document (query field + `$set` fields, hence no
`created_at`) when none matches. -/
def set_file_content (username : String) (content : Option String) (now : Nat) :
    List UserFile → List UserFile
  | [] => [{ username := username, content := content,
             created_at := none, updated_at := now }]
  | f :: fs =>
    if f.username == username then
      { f with content := content, updated_at := now } :: fs
    else
      f :: set_file_content username content now fs

/-- The `update_one` call of `update_user_progress` (no upsert): sets the
`progress` field of the first user matching `username`; a no-op when none
matches. -/
def set_user_progress (username : String) (p : Json) : List User → List User
  | [] => []
  | u :: us =>
    if u.username == username then
      { u with progress := some p } :: us
    else
      u :: set_user_progress username p us

/-- Body of a register request; `grade` is optional
(`data.get('grade', 'Not specified')`). -/
structure RegisterRequest where
  username : String
  password : String
  email : String
  grade : Option String

/-- JSON response carrying only the success flag and message, plus the HTTP
status code. -/
structure SimpleResponse where
  status : Nat
  success : Bool
  message : String
deriving DecidableEq

/-- The public user payload returned by a successful login. -/
structure LoginUser where
  username : String
  email : String
  grade : String
deriving DecidableEq

/-- Response of the login endpoint: status, flag, message and, on success,
the public fields of the user. -/
structure LoginResponse where
  status : Nat
  success : Bool
  message : String
  user : Option LoginUser
deriving DecidableEq

/-- Response of `GET /api/user/file`: on success the `file` payload holds
the stored content and the updated timestamp. -/
structure FileGetResponse where
  status : Nat
  success : Bool
  message : Option String
  file : Option (Option String × Nat)
deriving DecidableEq

/-- Response of `GET /api/user/progress`: on success the stored progress
object (already defaulted to the empty object when the field is absent). -/
structure ProgressGetResponse where
  status : Nat
  success : Bool
  message : Option String
  progress : Option Json

/-- Response of `POST /api/ask`.  `sent` records the prompt forwarded to the
external generative model (`none` when the model was never invoked). -/
structure AskResponse where
  status : Nat
  success : Bool
  message : Option String
  answer : Option String
  sent : Option String

/-- `register` (src/app.py:44): rejects an existing username, then an
existing email, else hashes the password, inserts the user and creates the
initial user file.  `salt` models `bcrypt.gensalt()`, `now` the clock. -/
def register (req : RegisterRequest) (salt now : Nat) (s : AppState) :
    SimpleResponse × AppState :=
  if (s.users.find? (fun u => u.username == req.username)).isSome then
    ({ status := 400, success := false, message := "Username already exists" }, s)
  else if (s.users.find? (fun u => u.email == req.email)).isSome then
    ({ status := 400, success := false, message := "Email already exists" }, s)
  else
    let user : User :=
      { username := req.username,
        password := hashpw req.password salt,
        email := req.email,
        grade := req.grade.getD "Not specified",
        created_at := now,
        progress := none }
    let users := s.users ++ [user]
    let files := (create_user_file req.username now s.user_files).2
    ({ status := 201, success := true, message := "User registered successfully" },
     { users := users, user_files := files })

/-- Body of a login request. -/
structure LoginRequest where
  username : String
  password : String

/-- `login` (src/app.py:82): looks the user up by username, verifies the
password hash, and on success binds the session to the username, lazily
creates the user file, and returns the public fields. -/
def login (req : LoginRequest) (now : Nat) (s : AppState) (sess : SessionState) :
    LoginResponse × AppState × SessionState :=
  match s.users.find? (fun u => u.username == req.username) with
  | none =>
    ({ status := 401, success := false,
       message := "Invalid username or password", user := none }, s, sess)
  | some user =>
    if checkpw req.password user.password then
      ({ status := 200, success := true, message := "Login successful",
         user := some { username := req.username, email := user.email,
                        grade := user.grade } },
       { users := s.users,
         user_files := (create_user_file req.username now s.user_files).2 },
       some req.username)
    else
      ({ status := 401, success := false,
         message := "Invalid username or password", user := none }, s, sess)

/-- `logout` (src/app.py:119): clears the session unconditionally. -/
def logout (_sess : SessionState) : SimpleResponse × SessionState :=
  ({ status := 200, success := true, message := "Logged out successfully" }, none)

/-- `get_user_file` (src/app.py:138): session-gated; ensures the document
exists, then returns its content and updated timestamp.  The 500 branch
mirrors the uncaught exception Flask would turn into an internal error; it is
unreachable because the document was just ensured. -/
def get_user_file (now : Nat) (s : AppState) (sess : SessionState) :
    FileGetResponse × AppState :=
  match sess with
  | none =>
    ({ status := 401, success := false, message := some "Not logged in",
       file := none }, s)
  | some username =>
    let files :=
      if (s.user_files.find? (fun f => f.username == username)).isSome then
        s.user_files
      else
        (create_user_file username now s.user_files).2
    match files.find? (fun f => f.username == username) with
    | some f =>
      ({ status := 200, success := true, message := none,
         file := some (f.content, f.updated_at) },
       { users := s.users, user_files := files })
    | none =>
      ({ status := 500, success := false, message := some "internal error",
         file := none },
       { users := s.users, user_files := files })

/-- `update_user_file` (src/app.py:158): session-gated upsert of the content
and updated timestamp. -/
def update_user_file (content : Option String) (now : Nat) (s : AppState)
    (sess : SessionState) : SimpleResponse × AppState :=
  match sess with
  | none =>
    ({ status := 401, success := false, message := "Not logged in" }, s)
  | some username =>
    ({ status := 200, success := true, message := "File updated successfully" },
     { users := s.users,
       user_files := set_file_content username content now s.user_files })

/-- `ask_question` (src/app.py:181): session-gated; rejects a missing or
empty question before the external model is consulted, else forwards the
question verbatim.  `oracle` models `model.generate_content(...).text`. -/
def ask_question (question : Option String) (oracle : String → String)
    (sess : SessionState) : AskResponse :=
  match sess with
  | none =>
    { status := 401, success := false, message := some "Not logged in",
      answer := none, sent := none }
  | some _ =>
    match question with
    | none =>
      { status := 400, success := false, message := some "No question provided",
        answer := none, sent := none }
    | some q =>
      if q == "" then
        { status := 400, success := false, message := some "No question provided",
          answer := none, sent := none }
      else
        { status := 200, success := true, message := none,
          answer := some (oracle q), sent := some q }

/-- `get_user_progress` (src/app.py:205): session-gated; 404 when the user
record is missing, else the stored progress defaulted to the empty object
(`user.get('progress', \x7b\x7d)`). -/
def get_user_progress (s : AppState) (sess : SessionState) :
    ProgressGetResponse × AppState :=
  match sess with
  | none =>
    ({ status := 401, success := false, message := some "Not logged in",
       progress := none }, s)
  | some username =>
    match s.users.find? (fun u => u.username == username) with
    | none =>
      ({ status := 404, success := false, message := some "User not found",
         progress := none }, s)
    | some user =>
      ({ status := 200, success := true, message := none,
         progress := some (user.progress.getD (Json.obj [])) }, s)

/-- `update_user_progress` (src/app.py:223): session-gated; stores
`data.get('progress')` wholesale — a missing key yields Python `None`,
stored as BSON null (`Json.null`). -/
def update_user_progress (p : Option Json) (s : AppState) (sess : SessionState) :
    SimpleResponse × AppState :=
  match sess with
  | none =>
    ({ status := 401, success := false, message := "Not logged in" }, s)
  | some username =>
    ({ status := 200, success := true, message := "Progress updated successfully" },
     { users := set_user_progress username (p.getD Json.null) s.users,
       user_files := s.user_files })

/-- One API request, with the clock/salt inputs its handler draws. -/
inductive Op where
  | opRegister (req : RegisterRequest) (salt now : Nat) : Op
  | opLogin (req : LoginRequest) (now : Nat) : Op
  | opLogout : Op
  | opFileRead (now : Nat) : Op
  | opFileWrite (content : Option String) (now : Nat) : Op
  | opProgressRead : Op
  | opProgressWrite (p : Option Json) : Op
  | opAsk (question : Option String) : Op

/-- State transition of a single request (the response is discarded; `opAsk`
never touches the persistent state). -/
def step (op : Op) (st : AppState × SessionState) : AppState × SessionState :=
  match op with
  | .opRegister req salt now => ((register req salt now st.1).2, st.2)
  | .opLogin req now =>
    let r := login req now st.1 st.2
    (r.2.1, r.2.2)
  | .opLogout => (st.1, (logout st.2).2)
  | .opFileRead now => ((get_user_file now st.1 st.2).2, st.2)
  | .opFileWrite c now => ((update_user_file c now st.1 st.2).2, st.2)
  | .opProgressRead => ((get_user_progress st.1 st.2).2, st.2)
  | .opProgressWrite p => ((update_user_progress p st.1 st.2).2, st.2)
  | .opAsk _ => st

/-- Run a sequence of requests from an initial state. -/
def run (ops : List Op) (st : AppState × SessionState) : AppState × SessionState :=
  ops.foldl (fun acc op => step op acc) st

/-- At most one `user_files` document per username: the invariant of the
User Document store. -/
def filesInvariant (files : List UserFile) : Prop :=
  ∀ u : String, files.countP (fun f => f.username == u) ≤ 1

/-- The upsert distributes over an append whose first part has no match. -/
theorem set_file_content_append_of_none (u : String) (c : Option String) (t : Nat)
    (fs gs : List UserFile) (h : fs.find? (fun f => f.username == u) = none) :
    set_file_content u c t (fs ++ gs) = fs ++ set_file_content u c t gs := by
  induction fs with
  | nil => simp
  | cons f fs ih =>
    have hf : (f.username == u) = false := by
      have := List.find?_eq_none.mp h f (List.mem_cons_self f fs)
      simpa using this
    have h' : fs.find? (fun f => f.username == u) = none :=
      List.find?_eq_none.mpr fun x hx =>
        List.find?_eq_none.mp h x (List.mem_cons_of_mem _ hx)
    simp [set_file_content, hf, ih h']

/-- After the upsert, the first document matching the username carries the
written content and timestamp (the other fields come from the old document
when there was one, else from the freshly inserted record). -/
theorem find?_set_file_content (u : String) (c : Option String) (t : Nat) :
    ∀ fs : List UserFile,
      (set_file_content u c t fs).find? (fun f => f.username == u) =
        some (match fs.find? (fun f => f.username == u) with
              | some f => { f with content := c, updated_at := t }
              | none => { username := u, content := c, created_at := none,
                          updated_at := t })
  | [] => by simp [set_file_content]
  | f :: fs => by
    by_cases h : (f.username == u) = true
    · simp [set_file_content, h, List.find?_cons_of_pos]
    · simp [set_file_content, h, List.find?_cons_of_neg,
        find?_set_file_content u c t fs]

/-- Creating the user file when nothing matches appends the default
document. -/
theorem create_user_file_of_none (u : String) (now : Nat) (fs : List UserFile)
    (h : fs.find? (fun f => f.username == u) = none) :
    create_user_file u now fs =
      (true, fs ++ [{ username := u, content := some "Welcome to EduCompanion!",
                      created_at := some now, updated_at := now }]) := by
  simp [create_user_file, h]

/-- Creating the user file is a no-op when a document already matches. -/
theorem create_user_file_of_some (u : String) (now : Nat) (fs : List UserFile)
    (h : (fs.find? (fun f => f.username == u)).isSome) :
    create_user_file u now fs = (false, fs) := by
  cases hf : fs.find? (fun f => f.username == u) with
  | none => rw [hf] at h; simp at h
  | some f => simp [create_user_file, hf]

/-- After `create_user_file`, a document for the username exists. -/
theorem find?_create_user_file (u : String) (now : Nat) (fs : List UserFile) :
    (((create_user_file u now fs).2.find? (fun f => f.username == u)).isSome) = true := by
  cases hf : fs.find? (fun f => f.username == u) with
  | some f => simp [create_user_file, hf]
  | none => simp [create_user_file, hf, List.find?_append, hf]

/-- A list on which `find?` fails has no element satisfying the predicate. -/
theorem countP_eq_zero_of_find?_none {α : Type} (p : α → Bool) (l : List α)
    (h : l.find? p = none) : l.countP p = 0 :=
  List.countP_eq_zero.mpr (List.find?_eq_none.mp h)

/-- Per-username document count after the upsert: unchanged when a document
matched, else one more for the written username. -/
theorem countP_set_file_content (u v : String) (c : Option String) (t : Nat) :
    ∀ fs : List UserFile,
      (set_file_content u c t fs).countP (fun f => f.username == v) =
        if (fs.find? (fun f => f.username == u)).isSome then
          fs.countP (fun f => f.username == v)
        else
          fs.countP (fun f => f.username == v) + (if u == v then 1 else 0)
  | [] => by simp [set_file_content, List.countP_cons]
  | f :: fs => by
    by_cases h : (f.username == u) = true
    · simp [set_file_content, h, List.find?_cons_of_pos, List.countP_cons]
    · simp only [set_file_content, h, if_neg, Bool.false_eq_true, not_false_iff,
        List.find?_cons_of_neg, List.countP_cons,
        countP_set_file_content u v c t fs]
      split <;> omega

/-- The upsert preserves the at-most-one-document-per-username invariant. -/
theorem filesInvariant_set_file_content (u : String) (c : Option String) (t : Nat)
    (fs : List UserFile) (h : filesInvariant fs) :
    filesInvariant (set_file_content u c t fs) := by
  intro v
  rw [countP_set_file_content]
  split
  · exact h v
  · rename_i hnone
    by_cases huv : (u == v) = true
    · have h0 : fs.countP (fun f => f.username == v) = 0 := by
        have heq : u = v := eq_of_beq huv
        subst heq
        apply countP_eq_zero_of_find?_none
        cases hf : fs.find? (fun f => f.username == u) with
        | none => rfl
        | some f => rw [hf] at hnone; simp at hnone
      simp [huv, h0]
    · simp only [huv, if_neg, Bool.false_eq_true, not_false_iff, Nat.add_zero]
      exact h v

/-- Lazy creation preserves the at-most-one-document invariant. -/
theorem filesInvariant_create_user_file (u : String) (now : Nat)
    (fs : List UserFile) (h : filesInvariant fs) :
    filesInvariant (create_user_file u now fs).2 := by
  cases hf : fs.find? (fun f => f.username == u) with
  | some f => simpa [create_user_file, hf] using h
  | none =>
    intro v
    rw [create_user_file_of_none u now fs hf, List.countP_append]
    by_cases huv : (u == v) = true
    · have heq : u = v := eq_of_beq huv
      subst heq
      have h0 : fs.countP (fun f => f.username == u) = 0 :=
        countP_eq_zero_of_find?_none _ _ hf
      simp [h0, List.countP_cons]
    · have h1 : List.countP (fun f => f.username == v)
          ([{ username := u, content := some "Welcome to EduCompanion!",
              created_at := some now, updated_at := now }] : List UserFile) = 0 := by
        simp [List.countP_cons, huv]
      rw [h1]
      simpa using h v

/-- After the progress update, the first user matching the username carries
the new progress value. -/
theorem find?_set_user_progress (v : String) (p : Json) :
    ∀ us : List User,
      (set_user_progress v p us).find? (fun x => x.username == v) =
        (us.find? (fun x => x.username == v)).map
          (fun u => { u with progress := some p })
  | [] => by simp [set_user_progress]
  | u :: us => by
    by_cases h : (u.username == v) = true
    · simp [set_user_progress, h, List.find?_cons_of_pos]
    · simp [set_user_progress, h, List.find?_cons_of_neg,
        find?_set_user_progress v p us]

/-- Reading the document when it already exists returns its content and
updated timestamp and leaves the state untouched. -/
theorem get_user_file_found (t : Nat) (s : AppState) (u : String) (f : UserFile)
    (h : s.user_files.find? (fun f => f.username == u) = some f) :
    get_user_file t s (some u) =
      ({ status := 200, success := true, message := none,
         file := some (f.content, f.updated_at) }, s) := by
  simp [get_user_file, h]

/-- Every single request preserves the at-most-one-document-per-username
invariant of the `user_files` collection. -/
theorem filesInvariant_step (op : Op) (st : AppState × SessionState)
    (h : filesInvariant st.1.user_files) :
    filesInvariant (step op st).1.user_files := by
  obtain ⟨s, sess⟩ := st
  cases op with
  | opRegister req salt now =>
    simp only [step, register]
    split
    · exact h
    · split
      · exact h
      · exact filesInvariant_create_user_file _ _ _ h
  | opLogin req now =>
    simp only [step, login]
    cases hf : s.users.find? (fun u => u.username == req.username) with
    | none => exact h
    | some u =>
      simp only
      split
      · exact filesInvariant_create_user_file _ _ _ h
      · exact h
  | opLogout => exact h
  | opFileRead now =>
    cases sess with
    | none => exact h
    | some u =>
      simp only [step, get_user_file]
      split
      · split
        · rename_i hsome _
          simpa using h
        · rename_i hnone _
          exact filesInvariant_create_user_file _ _ _ h
      · split
        · rename_i hsome _
          simpa using h
        · rename_i hnone _
          exact filesInvariant_create_user_file _ _ _ h
  | opFileWrite c now =>
    cases sess with
    | none => exact h
    | some u => exact filesInvariant_set_file_content _ _ _ _ h
  | opProgressRead =>
    cases sess with
    | none => exact h
    | some u =>
      simp only [step, get_user_progress]
      split <;> exact h
  | opProgressWrite p =>
    cases sess with
    | none => exact h
    | some u => exact h
  | opAsk q => exact h

/-- Every sequence of requests preserves the at-most-one-document-per-username
invariant. -/
theorem filesInvariant_run (ops : List Op) (st : AppState × SessionState)
    (h : filesInvariant st.1.user_files) :
    filesInvariant (run ops st).1.user_files := by
  induction ops generalizing st with
  | nil => exact h
  | cons op ops ih => exact ih (step op st) (filesInvariant_step op st h)

/-- A sample registered user for concrete instantiations. -/
def demoUser : User :=
  { username := "alice", password := hashpw "pw1" 1, email := "a@x.com",
    grade := "10th", created_at := 0, progress := none }

/-- A sample state holding one registered user and no user files. -/
def demoState : AppState :=
  { users := [demoUser], user_files := [] }

/-- C1: if a User record with the requested username already exists,
`register` fails with the DuplicateUsername message and returns the state
unchanged (no user inserted, no user file created); if the username is
fresh but the email already exists, it fails with the DuplicateEmail
message, again leaving the state unchanged. -/
theorem register_duplicate_rejected (req : RegisterRequest) (salt now : Nat)
    (s : AppState) :
    ((s.users.find? (fun u => u.username == req.username)).isSome →
      register req salt now s =
        ({ status := 400, success := false,
           message := "Username already exists" }, s))
    ∧ (s.users.find? (fun u => u.username == req.username) = none →
       (s.users.find? (fun u => u.email == req.email)).isSome →
       register req salt now s =
         ({ status := 400, success := false,
            message := "Email already exists" }, s)) := by
  constructor
  · intro h
    simp [register, h]
  · intro h1 h2
    simp [register, h1, h2]

/-- C1 witness: registering a second "alice" against the sample state is
rejected with the duplicate-username message and leaves the state as it
was. -/
theorem register_duplicate_rejected_witness :
    register { username := "alice", password := "pw2", email := "b@y.com",
               grade := none } 2 7 demoState =
      ({ status := 400, success := false,
         message := "Username already exists" }, demoState) :=
  (register_duplicate_rejected
    { username := "alice", password := "pw2", email := "b@y.com", grade := none }
    2 7 demoState).1 (by decide)

/-- C9: when both the requested username and the requested email already
belong to existing User records, `register` reports the duplicate username,
not the duplicate email: the username check runs first. -/
theorem register_username_check_first (req : RegisterRequest) (salt now : Nat)
    (s : AppState)
    (hu : (s.users.find? (fun u => u.username == req.username)).isSome)
    (_he : (s.users.find? (fun u => u.email == req.email)).isSome) :
    (register req salt now s).1.message = "Username already exists" ∧
    (register req salt now s).1.message ≠ "Email already exists" ∧
    (register req salt now s).1.status = 400 := by
  refine ⟨?_, ?_, ?_⟩ <;> simp [register, hu]

/-- C9 witness: a request reusing both "alice" and "a@x.com" is rejected
with the duplicate-username message. -/
theorem register_username_check_first_witness :
    (register { username := "alice", password := "x", email := "a@x.com",
                grade := none } 3 9 demoState).1.message =
      "Username already exists" :=
  (register_username_check_first
    { username := "alice", password := "x", email := "a@x.com", grade := none }
    3 9 demoState (by decide) (by decide)).1

/-- C7: without an established session, every session-gated request
(document read, document write, progress read, progress write, ask) returns
401 and leaves both collections unchanged; the ask endpoint never forwards
anything to the external model. -/
theorem unauthenticated_gated_requests (s : AppState) (now : Nat)
    (c : Option String) (p : Option Json) (q : Option String)
    (oracle : String → String) :
    (get_user_file now s none).1.status = 401 ∧ (get_user_file now s none).2 = s
    ∧ (update_user_file c now s none).1.status = 401
    ∧ (update_user_file c now s none).2 = s
    ∧ (get_user_progress s none).1.status = 401
    ∧ (get_user_progress s none).2 = s
    ∧ (update_user_progress p s none).1.status = 401
    ∧ (update_user_progress p s none).2 = s
    ∧ (ask_question q oracle none).status = 401
    ∧ (ask_question q oracle none).sent = none := by
  simp [get_user_file, update_user_file, get_user_progress,
    update_user_progress, ask_question]

/-- C3: when the stored hash verifies against the supplied password, login
answers 200 with exactly the public fields (username, email, grade), binds
the session to the username, and `current_user` then returns it; when no
record matches or the hash does not verify, login answers 401 with the
invalid-credentials message and the session is unchanged (in particular an
anonymous session stays anonymous). -/
theorem login_session_and_payload (req : LoginRequest) (now : Nat)
    (s : AppState) (sess : SessionState) :
    (∀ u : User, s.users.find? (fun x => x.username == req.username) = some u →
      checkpw req.password u.password = true →
        (login req now s sess).1.status = 200 ∧
        (login req now s sess).1.user =
          some { username := req.username, email := u.email, grade := u.grade } ∧
        (login req now s sess).2.2 = some req.username ∧
        current_user (login req now s sess).2.2 = some req.username)
    ∧ (s.users.find? (fun x => x.username == req.username) = none →
        (login req now s sess).1.status = 401 ∧
        (login req now s sess).1.message = "Invalid username or password" ∧
        (login req now s sess).2.2 = sess)
    ∧ (∀ u : User, s.users.find? (fun x => x.username == req.username) = some u →
        checkpw req.password u.password = false →
          (login req now s sess).1.status = 401 ∧
          (login req now s sess).1.message = "Invalid username or password" ∧
          (login req now s sess).2.2 = sess) := by
  refine ⟨?_, ?_, ?_⟩
  · intro u hu hc
    simp [login, hu, hc, current_user]
  · intro h
    simp [login, h]
  · intro u hu hc
    simp [login, hu, hc]

/-- C3 witness: logging in as "alice" with the correct password against the
sample state binds the session to "alice" and returns the stored public
fields. -/
theorem login_session_and_payload_witness :
    (login { username := "alice", password := "pw1" } 4 demoState none).2.2 =
      some "alice" ∧
    (login { username := "alice", password := "pw1" } 4 demoState none).1.user =
      some { username := "alice", email := "a@x.com", grade := "10th" } :=
  ⟨((login_session_and_payload { username := "alice", password := "pw1" }
      4 demoState none).1 demoUser rfl (by decide)).2.2.1,
   ((login_session_and_payload { username := "alice", password := "pw1" }
      4 demoState none).1 demoUser rfl (by decide)).2.1⟩

/-- C6: for an authenticated session, ask answers 400 exactly when the
question is missing or blank, and then nothing is forwarded to the external
model; otherwise the question is forwarded verbatim and the model's answer
is returned unchanged with status 200. -/
theorem ask_question_gates_model (v : String) (q : Option String)
    (oracle : String → String) :
    ((q = none ∨ q = some "") →
        (ask_question q oracle (some v)).status = 400 ∧
        (ask_question q oracle (some v)).sent = none)
    ∧ ((ask_question q oracle (some v)).status = 400 →
        (q = none ∨ q = some ""))
    ∧ (∀ qs : String, q = some qs → qs ≠ "" →
        (ask_question q oracle (some v)).status = 200 ∧
        (ask_question q oracle (some v)).sent = some qs ∧
        (ask_question q oracle (some v)).answer = some (oracle qs)) := by
  refine ⟨?_, ?_, ?_⟩
  · rintro (rfl | rfl) <;> simp [ask_question]
  · intro h
    cases q with
    | none => exact Or.inl rfl
    | some qs =>
      by_cases hq : qs = ""
      · exact Or.inr (by rw [hq])
      · exfalso
        have hb : (qs == "") = false := beq_eq_false_iff_ne.mpr hq
        simp [ask_question, hb] at h
  · intro qs hq hne
    subst hq
    have hb : (qs == "") = false := beq_eq_false_iff_ne.mpr hne
    simp [ask_question, hb]

/-- C6 witness: a blank question is rejected with 400 and nothing is sent to
the model; the question "hi" is forwarded verbatim and the model's answer is
returned. -/
theorem ask_question_gates_model_witness :
    ((ask_question (some "") (fun s => s) (some "alice")).status = 400 ∧
     (ask_question (some "") (fun s => s) (some "alice")).sent = none) ∧
    ((ask_question (some "hi") (fun s => s) (some "alice")).status = 200 ∧
     (ask_question (some "hi") (fun s => s) (some "alice")).sent = some "hi" ∧
     (ask_question (some "hi") (fun s => s) (some "alice")).answer = some "hi") :=
  ⟨(ask_question_gates_model "alice" (some "") (fun s => s)).1 (Or.inr rfl),
   (ask_question_gates_model "alice" (some "hi") (fun s => s)).2.2 "hi" rfl
     (by decide)⟩

/-- C8: for an authenticated session, the progress read answers 404 with the
user-not-found message exactly when no User record matches the bound
username (leaving the state unchanged), and otherwise answers 200 with the
stored progress object, defaulted to the empty object when the field was
never set. -/
theorem get_user_progress_cases (s : AppState) (v : String) :
    (s.users.find? (fun x => x.username == v) = none →
        (get_user_progress s (some v)).1.status = 404 ∧
        (get_user_progress s (some v)).1.message = some "User not found" ∧
        (get_user_progress s (some v)).2 = s)
    ∧ ((get_user_progress s (some v)).1.status = 404 →
        s.users.find? (fun x => x.username == v) = none)
    ∧ (∀ u : User, s.users.find? (fun x => x.username == v) = some u →
        (get_user_progress s (some v)).1.status = 200 ∧
        (get_user_progress s (some v)).1.progress =
          some (u.progress.getD (Json.obj []))) := by
  refine ⟨?_, ?_, ?_⟩
  · intro h
    simp [get_user_progress, h]
  · intro h
    cases hf : s.users.find? (fun x => x.username == v) with
    | none => rfl
    | some u => simp [get_user_progress, hf] at h
  · intro u hu
    simp [get_user_progress, hu]

/-- C8 witness: reading the progress of the sample user, whose progress
field was never set, returns the empty object; reading it as a user with no
record returns 404. -/
theorem get_user_progress_cases_witness :
    ((get_user_progress demoState (some "alice")).1.progress =
      some (Json.obj [])) ∧
    (get_user_progress demoState (some "bob")).1.status = 404 :=
  ⟨((get_user_progress_cases demoState "alice").2.2 demoUser rfl).2,
   ((get_user_progress_cases demoState "bob").1 rfl).1⟩

/-- C10: for an authenticated user whose record exists, a progress write
whose body lacks the progress key succeeds with 200 and stores BSON null in
the progress field; the subsequent progress read returns null, which is not
the empty object that an absent field would have produced. -/
theorem progress_write_missing_key (s : AppState) (v : String) (u : User)
    (h : s.users.find? (fun x => x.username == v) = some u) :
    (update_user_progress none s (some v)).1.status = 200 ∧
    (get_user_progress (update_user_progress none s (some v)).2
        (some v)).1.progress = some Json.null ∧
    some Json.null ≠ some (Json.obj []) := by
  refine ⟨rfl, ?_, ?_⟩
  · simp [update_user_progress, get_user_progress, find?_set_user_progress, h]
  · intro hcontra
    exact Json.noConfusion (Option.some.inj hcontra)

/-- C10 witness: a progress write with no progress key against the sample
state stores null, and the subsequent read returns null. -/
theorem progress_write_missing_key_witness :
    (get_user_progress (update_user_progress none demoState (some "alice")).2
        (some "alice")).1.progress = some Json.null :=
  (progress_write_missing_key demoState "alice" demoUser rfl).2.1

/-- C2: after a successful read returned the timestamp `ts0`, writing
content `c` at a time `t1` no earlier than `ts0` (the clock is monotone) and
reading again with no intervening write returns exactly `c` together with a
timestamp that is at least `ts0`. -/
theorem write_then_read_roundtrip (s : AppState) (u : String)
    (t0 t1 t2 ts0 : Nat) (c0 c : Option String)
    (_hprev : (get_user_file t0 s (some u)).1.file = some (c0, ts0))
    (hclock : ts0 ≤ t1) :
    ∃ ts : Nat,
      (get_user_file t2
          (update_user_file c t1 (get_user_file t0 s (some u)).2 (some u)).2
          (some u)).1.file = some (c, ts) ∧ ts0 ≤ ts := by
  refine ⟨t1, ?_, hclock⟩
  set s0 := (get_user_file t0 s (some u)).2 with hs0
  have hup : (update_user_file c t1 s0 (some u)).2 =
      { users := s0.users,
        user_files := set_file_content u c t1 s0.user_files } := rfl
  rw [hup]
  have hfind := find?_set_file_content u c t1 s0.user_files
  cases hf : s0.user_files.find? (fun f => f.username == u) with
  | some f =>
    rw [hf] at hfind
    rw [get_user_file_found t2 _ u _ hfind]
  | none =>
    rw [hf] at hfind
    rw [get_user_file_found t2 _ u _ hfind]

/-- C2 witness: from the empty state, the first read creates the document at
time 3; writing "hi" at time 7 and reading again returns "hi" with a
timestamp at least 3. -/
theorem write_then_read_roundtrip_witness :
    ∃ ts : Nat,
      (get_user_file 9
          (update_user_file (some "hi") 7
            (get_user_file 3 { users := [], user_files := [] }
              (some "alice")).2 (some "alice")).2
          (some "alice")).1.file = some (some "hi", ts) ∧ 3 ≤ ts :=
  write_then_read_roundtrip { users := [], user_files := [] } "alice" 3 7 9 3
    (some "Welcome to EduCompanion!") (some "hi") rfl (by decide)

/-- C4: lazy creation is idempotent — on an absent document it inserts
exactly the default document (welcome content, both timestamps the current
time), on a present one it is a no-op, so a second call changes nothing —
and every sequence of API requests preserves the invariant that at most one
User Document exists per username. -/
theorem create_user_file_idempotent (u : String) :
    (∀ now : Nat, ∀ fs : List UserFile,
        fs.find? (fun f => f.username == u) = none →
        create_user_file u now fs =
          (true, fs ++ [{ username := u,
                          content := some "Welcome to EduCompanion!",
                          created_at := some now, updated_at := now }]))
    ∧ (∀ now : Nat, ∀ fs : List UserFile,
        (fs.find? (fun f => f.username == u)).isSome →
        create_user_file u now fs = (false, fs))
    ∧ (∀ now1 now2 : Nat, ∀ fs : List UserFile,
        (create_user_file u now2 (create_user_file u now1 fs).2).2 =
          (create_user_file u now1 fs).2)
    ∧ (∀ ops : List Op, ∀ st : AppState × SessionState,
        filesInvariant st.1.user_files →
        filesInvariant (run ops st).1.user_files) := by
  refine ⟨create_user_file_of_none u, create_user_file_of_some u, ?_,
    fun ops st h => filesInvariant_run ops st h⟩
  intro now1 now2 fs
  rw [create_user_file_of_some u now2 (create_user_file u now1 fs).2
    (find?_create_user_file u now1 fs)]

/-- A concrete register request for "alice". -/
def demoRegisterReq : RegisterRequest :=
  { username := "alice", password := "pw1", email := "a@x.com",
    grade := some "10th" }

/-- A concrete login request for "alice" with the correct password. -/
def demoLoginReq : LoginRequest :=
  { username := "alice", password := "pw1" }

/-- A concrete register-login-write request sequence. -/
def demoOps : List Op :=
  [Op.opRegister demoRegisterReq 1 2,
   Op.opLogin demoLoginReq 3,
   Op.opFileWrite (some "hi") 4]

/-- C4 witness: creating the missing document for "alice" at time 5 inserts
exactly the default document, and a concrete register-login-write run from
the empty state keeps at most one document per username. -/
theorem create_user_file_idempotent_witness :
    create_user_file "alice" 5 [] =
      (true, [{ username := "alice", content := some "Welcome to EduCompanion!",
                created_at := some 5, updated_at := 5 }]) ∧
    filesInvariant (run demoOps
      ({ users := [], user_files := [] }, none)).1.user_files :=
  ⟨(create_user_file_idempotent "alice").1 5 [] rfl,
   (create_user_file_idempotent "alice").2.2.2 _ _
     (fun v => by simp [List.countP_nil])⟩

/-- The spec's composite for the upsert comparison: EnsureExists followed by
overwriting the content and the updated timestamp, both at the same
instant. -/
def ensure_then_write (u : String) (c : Option String) (now : Nat)
    (s : AppState) : AppState :=
  { users := s.users,
    user_files :=
      set_file_content u c now (create_user_file u now s.user_files).2 }

/-- C5 counterexample: on a state with no document, the upsert write and the
EnsureExists-then-overwrite composite produce different User Document
stores — the upserted document carries no created timestamp, the ensured one
does. -/
theorem upsert_differs_from_ensure_then_write :
    (update_user_file (some "hi") 5 { users := [], user_files := [] }
        (some "alice")).2.user_files ≠
      (ensure_then_write "alice" (some "hi") 5
        { users := [], user_files := [] }).user_files := by
  decide

/-- C5 amended: when a document for the username already exists, the upsert
write and EnsureExists-then-overwrite yield the same state; when it is
absent, both create a document with the written content and updated
timestamp, but the upsert leaves the created timestamp unset whereas the
composite sets it to the current time. -/
theorem upsert_vs_ensure_then_write (s : AppState) (u : String)
    (c : Option String) (now : Nat) :
    ((s.user_files.find? (fun f => f.username == u)).isSome →
        (update_user_file c now s (some u)).2 = ensure_then_write u c now s)
    ∧ (s.user_files.find? (fun f => f.username == u) = none →
        (update_user_file c now s (some u)).2.user_files =
            s.user_files ++ [{ username := u, content := c,
                               created_at := none, updated_at := now }] ∧
        (ensure_then_write u c now s).user_files =
            s.user_files ++ [{ username := u, content := c,
                               created_at := some now, updated_at := now }]) := by
  constructor
  · intro h
    simp [update_user_file, ensure_then_write,
      create_user_file_of_some u now s.user_files h]
  · intro h
    have hsplit : set_file_content u c now (s.user_files ++ []) =
        s.user_files ++ set_file_content u c now [] :=
      set_file_content_append_of_none u c now s.user_files [] h
    rw [List.append_nil] at hsplit
    constructor
    · simp [update_user_file, hsplit, set_file_content]
    · have hone : set_file_content u c now
          ([{ username := u, content := some "Welcome to EduCompanion!",
              created_at := some now, updated_at := now }] : List UserFile) =
          [{ username := u, content := c, created_at := some now,
             updated_at := now }] := by
        simp [set_file_content]
      rw [ensure_then_write, create_user_file_of_none u now s.user_files h]
      simp only
      rw [set_file_content_append_of_none u c now s.user_files _ h, hone]

/-- C5 amended witness: from the empty state, the upsert write creates the
document without a created timestamp while the composite sets it. -/
theorem upsert_vs_ensure_then_write_witness :
    (update_user_file (some "hi") 5 { users := [], user_files := [] }
        (some "alice")).2.user_files =
      [{ username := "alice", content := some "hi", created_at := none,
         updated_at := 5 }] ∧
    (ensure_then_write "alice" (some "hi") 5
        { users := [], user_files := [] }).user_files =
      [{ username := "alice", content := some "hi", created_at := some 5,
         updated_at := 5 }] :=
  (upsert_vs_ensure_then_write { users := [], user_files := [] } "alice"
    (some "hi") 5).2 rfl
